import Mathlib

/-!
Verification of the MedFX Navigator exchange-rate dashboard (src/app.py).

The embedding uses:
- `List ℚ` for the USD/MYR rate series and forecast outputs (exact rational
  arithmetic stands in for Python floats);
- `ℤ` day ordinals for calendar dates (the app works at day granularity:
  `pd.Timedelta(days=1)` and `freq="D"`);
- `Option` for fallible Python operations (KeyError, ZeroDivisionError,
  `iloc[-1]` on an empty frame);
- a function `fc : Nat → List ℚ` standing for the opaque pickled Holt model:
  the artifact is an external collaborator produced offline, so its contract
  `forecast(steps) -> sequence of steps scalars` appears as a hypothesis where
  a claim needs it.

Python slicing semantics: for a sequence of length n, `l[:-k]` takes the first
`max 0 (n - k)` elements and `l[-k:]` drops that many, with clamping (never an
error). Natural-number subtraction models the clamp exactly.
-/

namespace ExchangeRateApp

/-- Python slice `l[:-k]`: all but the last `k` elements; on a sequence shorter
than `k` the negative stop index clamps to 0 and the result is empty. -/
def pySliceDropLast (l : List ℚ) (k : Nat) : List ℚ :=
  l.take (l.length - k)

/-- Python slice `l[-k:]`: the last `k` elements; on a sequence shorter than
`k` the negative start index clamps to 0 and the whole sequence is returned. -/
def pySliceTakeLast (l : List ℚ) (k : Nat) : List ℚ :=
  l.drop (l.length - k)

/-- Models src/app.py lines 70-71: `train = df["USD"].iloc[:-216]`,
`test = df["USD"].iloc[-216:]`. -/
def splitSeries (s : List ℚ) : List ℚ × List ℚ :=
  (pySliceDropLast s 216, pySliceTakeLast s 216)

/-- Models src/app.py line 73: `test_forecast = model.forecast(steps=len(test))`;
`fc` is the forecast operation of the external pickled model. -/
def testForecast (fc : Nat → List ℚ) (s : List ℚ) : List ℚ :=
  fc (splitSeries s).2.length

/-- Models src/app.py lines 75-80: `future_dates = pd.date_range(start=last_date
+ pd.Timedelta(days=1), periods=horizon, freq="D")`, with dates as integer day
ordinals. -/
def futureDates (lastDate : ℤ) (horizon : Nat) : List ℤ :=
  (List.range horizon).map (fun (i : Nat) => lastDate + 1 + (i : ℤ))

/-- Models src/app.py line 82: `future_forecast = model.forecast(steps=horizon)`. -/
def projectFuture (fc : Nat → List ℚ) (horizon : Nat) : List ℚ :=
  fc horizon

/-- Arithmetic mean of a list, modelling `.mean()` on a nonempty forecast
sequence (src/app.py line 88); the app only applies it to a forecast of
`horizon ≥ 1` values. -/
def listMean (l : List ℚ) : ℚ :=
  l.sum / (l.length : ℚ)

/-- Models src/app.py lines 87-88: `current_rate = df["USD"].iloc[-1]` (fallible
on an empty series, hence `Option`) and `avg_future = future_forecast.mean()`. -/
def summarize (series : List ℚ) (fc : Nat → List ℚ) (horizon : Nat) :
    Option ℚ × ℚ :=
  (series.getLast?, listMean (projectFuture fc horizon))

/-- Advisory message of the favorable branch, src/app.py lines 107-111. -/
def favorableMsg : String :=
  "**Highly Favorable Timing**\nUSD is expected to strengthen, increasing purchasing power for medical procedures in Malaysia."

/-- Advisory message of the monitor branch, src/app.py lines 113-116. -/
def monitorMsg : String :=
  "**Monitor the Market**\nRates appear stable. Consider flexibility if treatment timing allows."

/-- Models src/app.py lines 106-116: the Market Insights view emits the
favorable message when `avg_future > current_rate` and the monitor message
otherwise. -/
def marketAdvisory (avgFuture currentRate : ℚ) : String :=
  if avgFuture > currentRate then favorableMsg else monitorMsg

/-- Models Python scalar division, which raises ZeroDivisionError on a zero
divisor (modelled as `none`). -/
def pyDiv (x y : ℚ) : Option ℚ :=
  if y = 0 then none else some (x / y)

/-- Models src/app.py lines 170-177: the two "Estimated Cost (USD)" entries of
`calc_data`, `user_cost_myr / current_rate` and `user_cost_myr / avg_future`.
The divisions are performed unconditionally; there is no branch on a zero
`avg_future`, so a degenerate rate surfaces as the numeric fault `none` rather
than as a detected-and-reported condition. -/
def calcData (userCostMYR currentRate avgFuture : ℚ) : Option (ℚ × ℚ) :=
  match pyDiv userCostMYR currentRate, pyDiv userCostMYR avgFuture with
  | some payToday, some payLater => some (payToday, payLater)
  | _, _ => none

/-- Cost conversion MYR to USD used by the Budget view, `cost / rate`
(src/app.py lines 174-175 for the user cost and lines 200-201 for the fixed
procedure costs), on the nondegenerate path where the rate is nonzero. -/
def estimatedCostUSD (costMYR rate : ℚ) : ℚ :=
  costMYR / rate

/-- Models src/app.py lines 214-217: `savings` is the pay-today USD cost minus
the pay-later USD cost. -/
def savings (userCostMYR currentRate avgFuture : ℚ) : ℚ :=
  estimatedCostUSD userCostMYR currentRate - estimatedCostUSD userCostMYR avgFuture

/-- Outcome of the savings branch of the Budget view. -/
inductive BudgetAdvisory where
  | potentialSavings (amount : ℚ)
  | noAdvantage
  deriving DecidableEq

/-- Models src/app.py lines 219-222: the success message with the savings
amount when `savings > 0`, the no-advantage info message otherwise. -/
def budgetAdvisory (s : ℚ) : BudgetAdvisory :=
  if s > 0 then BudgetAdvisory.potentialSavings s else BudgetAdvisory.noAdvantage

/-- Models src/app.py lines 234-252: the fixed four-city hospital catalog. -/
def hospitals : List (String × List String) :=
  [("Kuala Lumpur",
    ["Gleneagles Hospital", "Prince Court Medical Centre", "Sunway Medical Centre"]),
   ("Penang",
    ["Island Hospital", "Gleneagles Penang", "Loh Guan Lye Specialists Centre"]),
   ("Johor Bahru",
    ["KPJ Johor Specialist Hospital", "Columbia Asia Hospital"]),
   ("Melaka",
    ["Mahkota Medical Centre"])]

/-- Models src/app.py line 255: the dict lookup `hospitals[location]`; a key
missing from the catalog raises KeyError, modelled as `none`. -/
def hospitalLookup (city : String) : Option (List String) :=
  (hospitals.find? (fun p => p.1 == city)).map (fun p => p.2)

/-- Helper: the Market Insights view selects the favorable message exactly when
the forecast average strictly exceeds the current rate. -/
theorem marketAdvisory_eq_favorable_iff (avgFuture currentRate : ℚ) :
    marketAdvisory avgFuture currentRate = favorableMsg ↔ currentRate < avgFuture := by
  have hne : monitorMsg ≠ favorableMsg := by decide
  rw [marketAdvisory]
  by_cases h : avgFuture > currentRate
  · simp [if_pos h, h]
  · rw [if_neg h]
    simp [hne, h]

/-- C1: for every series of length at least 216 and any horizon in [1, 30],
the split yields train and test whose lengths sum to the series length with
len(test) = 216 exactly, and the test forecast (issued for len(test) steps by
a model meeting the forecast-length contract) also has the fixed length 216,
independent of the horizon. -/
theorem split_fixed_test_window (s : List ℚ) (fc : Nat → List ℚ) (horizon : Nat)
    (hs : 216 ≤ s.length) (hfc : ∀ n, (fc n).length = n)
    (hh1 : 1 ≤ horizon) (hh2 : horizon ≤ 30) :
    (splitSeries s).1.length + (splitSeries s).2.length = s.length ∧
    (splitSeries s).2.length = 216 ∧
    (testForecast fc s).length = 216 := by
  have h1 : (splitSeries s).1.length = s.length - 216 := by
    simp [splitSeries, pySliceDropLast]
  have h2 : (splitSeries s).2.length = 216 := by
    simp [splitSeries, pySliceTakeLast]
    omega
  refine ⟨by omega, h2, ?_⟩
  rw [testForecast, hfc, h2]

/-- Witness for C1 at a concrete series of length 220, a concrete model, and
horizon 7. -/
theorem split_fixed_test_window_witness :
    (splitSeries (List.replicate 220 (9/2 : ℚ))).1.length
      + (splitSeries (List.replicate 220 (9/2 : ℚ))).2.length = 220 ∧
    (splitSeries (List.replicate 220 (9/2 : ℚ))).2.length = 216 ∧
    (testForecast (fun n => List.replicate n (9/2 : ℚ))
      (List.replicate 220 (9/2 : ℚ))).length = 216 := by
  have h := split_fixed_test_window (List.replicate 220 (9/2 : ℚ))
    (fun n => List.replicate n (9/2 : ℚ)) 7
    (by rw [List.length_replicate]; norm_num)
    (fun n => List.length_replicate n _) (by omega) (by omega)
  refine ⟨?_, h.2.1, h.2.2⟩
  rw [h.1, List.length_replicate]

/-- C2 (code-bug evidence): on a series of only 3 points the split raises no
error at all; it silently yields an empty train segment and the whole series
as test, contradicting the required detect-and-report behavior. -/
theorem short_series_silent_split :
    splitSeries [(41/10 : ℚ), 42/10, 43/10] = ([], [41/10, 42/10, 43/10]) ∧
    (splitSeries [(41/10 : ℚ), 42/10, 43/10]).1.length = 0 ∧
    (splitSeries [(41/10 : ℚ), 42/10, 43/10]).2.length = 3 :=
  ⟨rfl, rfl, rfl⟩

/-- C3 (code-bug evidence): with a future-average rate of zero the Budget cost
conversion reaches the unguarded division and propagates the numeric fault
(`none`, modelling ZeroDivisionError); no branch detects and reports the
degenerate rate. -/
theorem zero_rate_division_fault :
    calcData 20000 (47/10) 0 = none ∧ pyDiv 20000 0 = none ∧
    (∀ C cur : ℚ, calcData C cur 0 = none) := by
  have h0 : ∀ C : ℚ, pyDiv C 0 = none := fun C => by simp [pyDiv]
  have hgen : ∀ C cur : ℚ, calcData C cur 0 = none := by
    intro C cur
    cases h : pyDiv C cur <;> simp [calcData, h, h0]
  exact ⟨hgen 20000 (47/10), h0 20000, hgen⟩

/-- C4: for every horizon in [1, 30], the projection returns exactly that many
forecast values, and exactly that many consecutive calendar dates the first of
which is one day after the last date of the series. -/
theorem project_future_exact (fc : Nat → List ℚ) (lastDate : ℤ) (horizon : Nat)
    (hfc : ∀ n, (fc n).length = n) (hh1 : 1 ≤ horizon) (hh2 : horizon ≤ 30) :
    (projectFuture fc horizon).length = horizon ∧
    (futureDates lastDate horizon).length = horizon ∧
    (futureDates lastDate horizon).head? = some (lastDate + 1) ∧
    (∀ i, i < horizon →
      (futureDates lastDate horizon)[i]? = some (lastDate + 1 + (i : ℤ))) := by
  refine ⟨hfc horizon, ?_, ?_, ?_⟩
  · rw [futureDates, List.length_map, List.length_range]
  · obtain ⟨k, rfl⟩ : ∃ k, horizon = k + 1 := ⟨horizon - 1, by omega⟩
    rw [futureDates, List.range_succ_eq_map, List.map_cons, List.head?_cons]
    norm_num
  · intro i hi
    rw [futureDates, List.getElem?_map, List.getElem?_range hi, Option.map_some']

/-- Witness for C4 at a concrete model, last date 100, and horizon 7. -/
theorem project_future_exact_witness :
    (projectFuture (fun n => List.replicate n (1 : ℚ)) 7).length = 7 ∧
    (futureDates 100 7).length = 7 ∧
    (futureDates 100 7).head? = some 101 ∧
    (futureDates 100 7)[3]? = some 104 := by
  have h := project_future_exact (fun n => List.replicate n (1 : ℚ)) 100 7
    (fun n => by simp) (by omega) (by omega)
  refine ⟨h.1, h.2.1, h.2.2.1, ?_⟩
  rw [show (104 : ℤ) = 100 + 1 + ((3 : ℕ) : ℤ) by norm_num]
  exact h.2.2.2 3 (by omega)

/-- C5: the Market Insights view emits exactly one of the two fixed advisory
messages, determined by the sign of avg_future - current_rate (favorable when
positive, monitor otherwise); in the scenario with last value 4.70 and
future_forecast = [4.72, 4.74], the average is 4.73 and the favorable branch
is selected. -/
theorem market_advisory_two_messages (avgFuture currentRate : ℚ) :
    (marketAdvisory avgFuture currentRate = favorableMsg ∨
      marketAdvisory avgFuture currentRate = monitorMsg) ∧
    (marketAdvisory avgFuture currentRate = favorableMsg ↔
      0 < avgFuture - currentRate) ∧
    favorableMsg ≠ monitorMsg ∧
    listMean [(4.72 : ℚ), 4.74] = 4.73 ∧
    marketAdvisory (listMean [(4.72 : ℚ), 4.74]) 4.70 = favorableMsg := by
  have hmean : listMean [(4.72 : ℚ), 4.74] = 4.73 := by
    norm_num [listMean, List.sum_cons, List.sum_nil]
  refine ⟨?_, ?_, by decide, hmean, ?_⟩
  · rw [marketAdvisory]
    by_cases h : avgFuture > currentRate
    · exact Or.inl (if_pos h)
    · exact Or.inr (if_neg h)
  · rw [marketAdvisory_eq_favorable_iff, sub_pos]
  · rw [hmean, marketAdvisory, if_pos (by norm_num)]

/-- Witness for C5 at the concrete scenario rates. -/
theorem market_advisory_two_messages_witness :
    (marketAdvisory (4.73 : ℚ) 4.70 = favorableMsg ∨
      marketAdvisory (4.73 : ℚ) 4.70 = monitorMsg) ∧
    (marketAdvisory (4.73 : ℚ) 4.70 = favorableMsg ↔
      0 < (4.73 : ℚ) - 4.70) ∧
    favorableMsg ≠ monitorMsg ∧
    listMean [(4.72 : ℚ), 4.74] = 4.73 ∧
    marketAdvisory (listMean [(4.72 : ℚ), 4.74]) 4.70 = favorableMsg :=
  market_advisory_two_messages 4.73 4.70

/-- C6: the Budget view reports the pay-today minus pay-later difference as
potential savings exactly when it is positive and as no advantage when it is
non-positive; in the scenario with user cost 20000 MYR, current rate 4.70 and
future average 4.60, the two USD costs are within a cent of 4255.32 and
4347.83, the savings value is within a cent of -92.51, and the no-advantage
branch is selected. -/
theorem budget_savings_branch :
    (∀ s : ℚ, 0 < s → budgetAdvisory s = BudgetAdvisory.potentialSavings s) ∧
    (∀ s : ℚ, s ≤ 0 → budgetAdvisory s = BudgetAdvisory.noAdvantage) ∧
    |estimatedCostUSD 20000 4.70 - 4255.32| < 1/100 ∧
    |estimatedCostUSD 20000 4.60 - 4347.83| < 1/100 ∧
    |savings 20000 4.70 4.60 - (-92.51)| < 1/100 ∧
    budgetAdvisory (savings 20000 4.70 4.60) = BudgetAdvisory.noAdvantage := by
  refine ⟨?_, ?_, ?_, ?_, ?_, ?_⟩
  · intro s hs
    rw [budgetAdvisory, if_pos hs]
  · intro s hs
    rw [budgetAdvisory, if_neg (not_lt.mpr hs)]
  · rw [abs_sub_lt_iff]
    constructor <;> norm_num [estimatedCostUSD]
  · rw [abs_sub_lt_iff]
    constructor <;> norm_num [estimatedCostUSD]
  · rw [abs_sub_lt_iff]
    constructor <;> norm_num [savings, estimatedCostUSD]
  · rw [budgetAdvisory, if_neg (by norm_num [savings, estimatedCostUSD])]

/-- Witness for C6 instantiating the two branch characterizations. -/
theorem budget_savings_branch_witness :
    budgetAdvisory 1 = BudgetAdvisory.potentialSavings 1 ∧
    budgetAdvisory (-1) = BudgetAdvisory.noAdvantage :=
  ⟨budget_savings_branch.1 1 (by norm_num),
   budget_savings_branch.2.1 (-1) (by norm_num)⟩

/-- C7: looking up a city absent from the four-city hospital catalog yields
the KeyError outcome (`none`), never a silent result; and for any city the
lookup never returns an empty hospital list. -/
theorem hospital_lookup_missing_city (city : String)
    (hc : ∀ p ∈ hospitals, p.1 ≠ city) :
    hospitalLookup city = none ∧
    (∀ l : List String, hospitalLookup city ≠ some l) ∧
    (∀ c : String, hospitalLookup c ≠ some []) := by
  have hfind : hospitals.find? (fun p => p.1 == city) = none := by
    rw [List.find?_eq_none]
    intro p hp
    simpa using hc p hp
  have hnone : hospitalLookup city = none := by
    rw [hospitalLookup, hfind, Option.map_none']
  refine ⟨hnone, ?_, ?_⟩
  · intro l h
    rw [hnone] at h
    exact Option.noConfusion h
  · intro c h
    rw [hospitalLookup] at h
    obtain ⟨p, hp, hp2⟩ := Option.map_eq_some'.mp h
    have hmem : p ∈ hospitals := List.mem_of_find?_eq_some hp
    have hne : p.2 ≠ [] := by
      simp only [hospitals, List.mem_cons, List.not_mem_nil, or_false] at hmem
      rcases hmem with h1 | h1 | h1 | h1 <;> subst h1 <;> simp
    exact hne hp2

/-- Witness for C7 at the concrete city Ipoh, which is not in the catalog. -/
theorem hospital_lookup_missing_city_witness :
    hospitalLookup "Ipoh" = none :=
  (hospital_lookup_missing_city "Ipoh" (by decide)).1

/-- C8: summarize is deterministic: identical (series, model, horizon) inputs
yield identical (current_rate, avg_future); and the pair is the last value of
the full series together with the arithmetic mean of the future forecast. -/
theorem summarize_deterministic (s1 s2 : List ℚ) (f1 f2 : Nat → List ℚ)
    (n1 n2 : Nat) (hs : s1 = s2) (hf : f1 = f2) (hn : n1 = n2) :
    summarize s1 f1 n1 = summarize s2 f2 n2 ∧
    (summarize s1 f1 n1).1 = s1.getLast? ∧
    (summarize s1 f1 n1).2 = (f1 n1).sum / ((f1 n1).length : ℚ) := by
  subst hs; subst hf; subst hn
  exact ⟨rfl, rfl, rfl⟩

/-- Witness for C8 at a concrete series, model, and horizon. -/
theorem summarize_deterministic_witness :
    summarize [(47/10 : ℚ)] (fun n => List.replicate n 1) 7
      = summarize [(47/10 : ℚ)] (fun n => List.replicate n 1) 7 ∧
    (summarize [(47/10 : ℚ)] (fun n => List.replicate n 1) 7).1
      = [(47/10 : ℚ)].getLast? ∧
    (summarize [(47/10 : ℚ)] (fun n => List.replicate n 1) 7).2
      = (List.replicate 7 (1 : ℚ)).sum / ((List.replicate 7 (1 : ℚ)).length : ℚ) :=
  summarize_deterministic [(47/10 : ℚ)] [(47/10 : ℚ)]
    (fun n => List.replicate n 1) (fun n => List.replicate n 1) 7 7 rfl rfl rfl

/-- C9: the MYR-to-USD cost conversion round-trips exactly for every cost and
every nonzero rate: (C / R) * R = C. -/
theorem cost_conversion_roundtrip (C R : ℚ) (hR : R ≠ 0) :
    estimatedCostUSD C R * R = C := by
  rw [estimatedCostUSD, div_mul_cancel₀ _ hR]

/-- Witness for C9 at the knee-replacement cost and the scenario rate. -/
theorem cost_conversion_roundtrip_witness :
    estimatedCostUSD 45000 (47/10) * (47/10) = 45000 :=
  cost_conversion_roundtrip 45000 (47/10) (by norm_num)

/-- C10: the Market and Budget views agree on favorability: for any user cost
of at least 100 MYR and strictly positive rates, the savings value is strictly
positive exactly when avg_future exceeds current_rate, which is exactly when
the Market view selects the favorable advisory. -/
theorem market_budget_agree (C cur avg : ℚ) (hC : 100 ≤ C)
    (hcur : 0 < cur) (havg : 0 < avg) :
    (0 < savings C cur avg ↔ cur < avg) ∧
    (0 < savings C cur avg ↔ marketAdvisory avg cur = favorableMsg) := by
  have hC0 : (0 : ℚ) < C := lt_of_lt_of_le (by norm_num) hC
  have key : 0 < savings C cur avg ↔ cur < avg := by
    rw [savings, estimatedCostUSD, estimatedCostUSD, sub_pos,
      div_lt_div_iff₀ havg hcur, mul_lt_mul_left hC0]
  exact ⟨key, key.trans (marketAdvisory_eq_favorable_iff avg cur).symm⟩

/-- Witness for C10 at the concrete scenario with a favorable forecast. -/
theorem market_budget_agree_witness :
    (0 < savings 20000 (46/10) (47/10) ↔ (46/10 : ℚ) < 47/10) ∧
    (0 < savings 20000 (46/10) (47/10) ↔
      marketAdvisory (47/10) (46/10) = favorableMsg) :=
  market_budget_agree 20000 (46/10) (47/10) (by norm_num) (by norm_num)
    (by norm_num)

end ExchangeRateApp
